import Mathlib

/-!
Shallow embedding of the service-marketplace core: the Drizzle storage layer
(`DbStorage` in the server source) and the Express route handlers over it
(service-request lifecycle, availability listing, Stripe payment intents).

Statuses are stored as plain strings, mirroring the `text` columns of the
Postgres schema (the TypeScript union annotations are compile-time only and
impose no runtime or database constraint). Timestamps are modelled as `Nat`
(`new Date()` is passed in as a `now` parameter), and the database is a
`Storage` record of three row lists. External effects (Stripe) are passed in
as parameters: generated ids and client secrets for `paymentIntents.create`,
and a function `String → String` giving the processor-reported status for
`paymentIntents.retrieve`.
-/

/-- A row of the `users` table (fields used by the modelled routes). -/
structure User where
  id : String
  email : String
  userType : Option String
  skills : List String
deriving Repr, DecidableEq

/-- A row of the `service_requests` table. -/
structure ServiceRequest where
  id : String
  clientId : String
  technicianId : Option String
  serviceType : String
  description : String
  location : String
  status : String
  quotedPrice : Option Int
  technicianNotes : Option String
  images : List String
  createdAt : Nat
  updatedAt : Nat
deriving Repr, DecidableEq

/-- A row of the `payments` table. -/
structure Payment where
  id : String
  serviceRequestId : String
  amount : Int
  stripePaymentIntentId : String
  status : String
  createdAt : Nat
deriving Repr, DecidableEq

/-- The database state: the three tables, each as a list of rows in
insertion order. -/
structure Storage where
  users : List User
  requests : List ServiceRequest
  payments : List Payment
deriving Repr, DecidableEq

/-- A `Partial<InsertServiceRequest>` PATCH body: each field is either absent
(`none`) or supplies a new value (for nullable columns the supplied value is
itself an `Option`). -/
structure RequestPatch where
  clientId : Option String
  technicianId : Option (Option String)
  serviceType : Option String
  description : Option String
  location : Option String
  status : Option String
  quotedPrice : Option (Option Int)
  technicianNotes : Option (Option String)
  images : Option (List String)
deriving Repr, DecidableEq

/-- The PATCH body with no fields supplied. -/
def RequestPatch.empty : RequestPatch :=
  ⟨none, none, none, none, none, none, none, none, none⟩

/-- The spread `{...updates, updatedAt: new Date()}` applied by
`DbStorage.updateServiceRequest`: supplied fields overwrite, `updatedAt` is
re-derived, everything else is kept. -/
def applyPatch (r : ServiceRequest) (u : RequestPatch) (now : Nat) : ServiceRequest :=
  { r with
    clientId := u.clientId.getD r.clientId
    technicianId := u.technicianId.getD r.technicianId
    serviceType := u.serviceType.getD r.serviceType
    description := u.description.getD r.description
    location := u.location.getD r.location
    status := u.status.getD r.status
    quotedPrice := u.quotedPrice.getD r.quotedPrice
    technicianNotes := u.technicianNotes.getD r.technicianNotes
    images := u.images.getD r.images
    updatedAt := now }

/-- An HTTP-level outcome: a JSON success payload or an error status code
with its message. -/
inductive ApiResult (α : Type) where
  | ok (value : α)
  | err (code : Nat) (message : String)
deriving Repr, DecidableEq

/-- `DbStorage.getUser`: first row of `users` with the given id. -/
def getUser (db : Storage) (id : String) : Option User :=
  db.users.find? (fun u => u.id == id)

/-- `DbStorage.getServiceRequest`: first row of `service_requests` with the
given id. -/
def getServiceRequest (db : Storage) (id : String) : Option ServiceRequest :=
  db.requests.find? (fun r => r.id == id)

/-- Insertion step of the `ORDER BY created_at DESC` sort. -/
def insertDescByCreatedAt (r : ServiceRequest) : List ServiceRequest → List ServiceRequest
  | [] => [r]
  | x :: xs =>
    if x.createdAt ≤ r.createdAt then r :: x :: xs else x :: insertDescByCreatedAt r xs

/-- `ORDER BY created_at DESC` modelled as an insertion sort (newest first). -/
def sortByCreatedAtDesc : List ServiceRequest → List ServiceRequest
  | [] => []
  | x :: xs => insertDescByCreatedAt x (sortByCreatedAtDesc xs)

/-- `DbStorage.getAvailableServiceRequests`: select rows with status
`pending` and null technicianId, order by `createdAt` descending, then — only
when the skill list is non-empty — keep rows whose serviceType occurs in the
skill list (exact string membership, `skills.includes`). -/
def getAvailableServiceRequests (db : Storage) (skills : List String) : List ServiceRequest :=
  let results := sortByCreatedAtDesc
    (db.requests.filter (fun r => r.status == "pending" && r.technicianId.isNone))
  if 0 < skills.length then
    results.filter (fun r => skills.contains r.serviceType)
  else
    results

/-- `DbStorage.updateServiceRequest`: overwrite the supplied fields plus a
fresh `updatedAt` on every row matching the id, returning the first updated
row (or `none`). -/
def updateServiceRequest (db : Storage) (id : String) (u : RequestPatch) (now : Nat) :
    Option ServiceRequest × Storage :=
  let reqs := db.requests.map (fun r => if r.id == id then applyPatch r u now else r)
  (reqs.find? (fun r => r.id == id), { db with requests := reqs })

/-- `DbStorage.getPaymentByServiceRequest`: first row of `payments` with the
given serviceRequestId (`LIMIT 1`, no explicit ordering). -/
def getPaymentByServiceRequest (db : Storage) (serviceRequestId : String) : Option Payment :=
  db.payments.find? (fun p => p.serviceRequestId == serviceRequestId)

/-- `DbStorage.updatePaymentStatus`: set `status` on every row matching the
id, returning the first updated row (or `none`). -/
def updatePaymentStatus (db : Storage) (id : String) (status : String) :
    Option Payment × Storage :=
  let ps := db.payments.map (fun p => if p.id == id then { p with status := status } else p)
  (ps.find? (fun p => p.id == id), { db with payments := ps })

/-- The body of `POST /api/service-requests` after `insertServiceRequestSchema`
parsing: the three required text columns plus the optional columns the insert
schema admits (columns with database defaults are optional; `none` means the
field was absent and the database default applies). -/
structure CreateRequestBody where
  serviceType : String
  description : String
  location : String
  status : Option String
  technicianId : Option String
  quotedPrice : Option Int
  technicianNotes : Option String
  images : Option (List String)
deriving Repr, DecidableEq

/-- `POST /api/service-requests`: parse the body with `clientId` forced to the
authenticated caller, insert the row (database defaults: status `pending`,
empty image list, fresh timestamps) and return it. -/
def createServiceRequestRoute (db : Storage) (userId : String) (body : CreateRequestBody)
    (newId : String) (now : Nat) : ApiResult ServiceRequest × Storage :=
  let created : ServiceRequest :=
    { id := newId
      clientId := userId
      technicianId := body.technicianId
      serviceType := body.serviceType
      description := body.description
      location := body.location
      status := body.status.getD "pending"
      quotedPrice := body.quotedPrice
      technicianNotes := body.technicianNotes
      images := body.images.getD []
      createdAt := now
      updatedAt := now }
  (ApiResult.ok created, { db with requests := db.requests ++ [created] })

/-- `POST /api/technician/jobs`: requires an existing caller of userType
`technician`; validates the minimal zod schema (serviceType non-empty,
description at least 10 characters, location at least 3); on success inserts a
row recording the creator as both clientId and technicianId, with status
`pending`. -/
def createTechnicianJobRoute (db : Storage) (userId : String)
    (serviceType description location : String) (newId : String) (now : Nat) :
    ApiResult ServiceRequest × Storage :=
  match getUser db userId with
  | none => (ApiResult.err 403 "Access denied. Technician role required.", db)
  | some user =>
    if user.userType ≠ some "technician" then
      (ApiResult.err 403 "Access denied. Technician role required.", db)
    else if serviceType.length < 1 || description.length < 10 || location.length < 3 then
      (ApiResult.err 400 "Invalid job data", db)
    else
      let created : ServiceRequest :=
        { id := newId
          clientId := userId
          technicianId := some userId
          serviceType := serviceType
          description := description
          location := location
          status := "pending"
          quotedPrice := none
          technicianNotes := none
          images := []
          createdAt := now
          updatedAt := now }
      (ApiResult.ok created, { db with requests := db.requests ++ [created] })

/-- `GET /api/service-requests/available`: requires an existing caller of
userType `technician`; returns the availability listing filtered by the
caller's skills. -/
def availableServiceRequestsRoute (db : Storage) (userId : String) :
    ApiResult (List ServiceRequest) :=
  match getUser db userId with
  | none => ApiResult.err 403 "Access denied. Technician role required."
  | some user =>
    if user.userType ≠ some "technician" then
      ApiResult.err 403 "Access denied. Technician role required."
    else
      ApiResult.ok (getAvailableServiceRequests db user.skills)

/-- `PATCH /api/service-requests/:id`: 404 when the request or the caller's
user row is missing; 403 unless the caller equals the request's clientId or
its technicianId; otherwise apply the raw body as a partial merge through
`DbStorage.updateServiceRequest` and return the updated row. -/
def patchServiceRequestRoute (db : Storage) (userId : String) (id : String)
    (updates : RequestPatch) (now : Nat) : ApiResult (Option ServiceRequest) × Storage :=
  match getServiceRequest db id with
  | none => (ApiResult.err 404 "Service request not found", db)
  | some request =>
    match getUser db userId with
    | none => (ApiResult.err 404 "User not found", db)
    | some _user =>
      if request.clientId ≠ userId ∧ request.technicianId ≠ some userId then
        (ApiResult.err 403 "Access denied", db)
      else
        let res := updateServiceRequest db id updates now
        (ApiResult.ok res.1, res.2)

/-- `POST /api/payments/create-intent`: 404 when the request is missing; 400
unless its status is `completed`; 400 when `quotedPrice` is falsy (absent or
zero — the code tests `!request.quotedPrice`); 400 `Payment already completed`
when the first stored payment row for the request has status `succeeded`;
otherwise create a Stripe intent (its id and client secret are the
`intentId`/`clientSecret` parameters), insert one payment row with status
`pending` and amount equal to the quoted price, and return the client secret
and payment id. -/
def createPaymentIntentRoute (db : Storage) (serviceRequestId : String)
    (intentId clientSecret : String) (newPaymentId : String) (now : Nat) :
    ApiResult (String × String) × Storage :=
  match getServiceRequest db serviceRequestId with
  | none => (ApiResult.err 404 "Service request not found", db)
  | some request =>
    if request.status ≠ "completed" then
      (ApiResult.err 400 "Service request must be completed before payment", db)
    else
      match request.quotedPrice with
      | none => (ApiResult.err 400 "No quoted price available", db)
      | some price =>
        if price = 0 then
          (ApiResult.err 400 "No quoted price available", db)
        else if (getPaymentByServiceRequest db serviceRequestId).any
            (fun p => p.status == "succeeded") then
          (ApiResult.err 400 "Payment already completed", db)
        else
          let payment : Payment :=
            { id := newPaymentId
              serviceRequestId := serviceRequestId
              amount := price
              stripePaymentIntentId := intentId
              status := "pending"
              createdAt := now }
          (ApiResult.ok (clientSecret, newPaymentId),
           { db with payments := db.payments ++ [payment] })

/-- `POST /api/payments/confirm`: retrieve the intent named by the
client-supplied `paymentIntentId` from the processor; when the processor
reports `succeeded`, set the payment row named by the client-supplied
`paymentId` to `succeeded` and answer success; otherwise leave the database
untouched and answer non-success (both with HTTP 200). -/
def confirmPaymentRoute (db : Storage) (paymentId paymentIntentId : String)
    (processorStatus : String → String) : ApiResult Bool × Storage :=
  if processorStatus paymentIntentId = "succeeded" then
    (ApiResult.ok true, (updatePaymentStatus db paymentId "succeeded").2)
  else
    (ApiResult.ok false, db)

/-- Membership in the insertion step of the descending sort. -/
theorem mem_insertDescByCreatedAt {a r : ServiceRequest} {l : List ServiceRequest} :
    a ∈ insertDescByCreatedAt r l ↔ a = r ∨ a ∈ l := by
  induction l with
  | nil => simp [insertDescByCreatedAt]
  | cons x xs ih =>
    simp only [insertDescByCreatedAt]
    split
    · simp [List.mem_cons]
    · simp only [List.mem_cons, ih]
      tauto

/-- The descending sort is membership-preserving. -/
theorem mem_sortByCreatedAtDesc {a : ServiceRequest} {l : List ServiceRequest} :
    a ∈ sortByCreatedAtDesc l ↔ a ∈ l := by
  induction l with
  | nil => simp [sortByCreatedAtDesc]
  | cons x xs ih => simp [sortByCreatedAtDesc, mem_insertDescByCreatedAt, ih]

/-- Inserting into a list that is sorted by `createdAt` descending keeps it
sorted. -/
theorem pairwise_insertDescByCreatedAt {r : ServiceRequest} {l : List ServiceRequest}
    (h : l.Pairwise (fun a b => b.createdAt ≤ a.createdAt)) :
    (insertDescByCreatedAt r l).Pairwise (fun a b => b.createdAt ≤ a.createdAt) := by
  induction l with
  | nil => simp [insertDescByCreatedAt]
  | cons x xs ih =>
    rcases List.pairwise_cons.mp h with ⟨hx, hxs⟩
    simp only [insertDescByCreatedAt]
    split
    · rename_i hle
      refine List.pairwise_cons.mpr ⟨?_, h⟩
      intro b hb
      rcases List.mem_cons.mp hb with rfl | hb
      · exact hle
      · exact le_trans (hx b hb) hle
    · rename_i hgt
      refine List.pairwise_cons.mpr ⟨?_, ih hxs⟩
      intro b hb
      rcases mem_insertDescByCreatedAt.mp hb with rfl | hb
      · exact le_of_not_le hgt
      · exact hx b hb

/-- The descending sort produces a list sorted by `createdAt` descending. -/
theorem pairwise_sortByCreatedAtDesc (l : List ServiceRequest) :
    (sortByCreatedAtDesc l).Pairwise (fun a b => b.createdAt ≤ a.createdAt) := by
  induction l with
  | nil => simp [sortByCreatedAtDesc]
  | cons x xs ih => exact pairwise_insertDescByCreatedAt ih

/-- Updating every row matching an id and then finding the first match gives
the first original match with the update applied, provided the update
preserves the id. -/
theorem find?_map_ite {l : List ServiceRequest} {id : String}
    {f : ServiceRequest → ServiceRequest} (hf : ∀ r, (f r).id = r.id) :
    (l.map (fun r => if r.id == id then f r else r)).find? (fun r => r.id == id) =
      (l.find? (fun r => r.id == id)).map f := by
  induction l with
  | nil => rfl
  | cons x xs ih =>
    by_cases hx : x.id = id
    · simp [List.find?_cons, hx, hf x, -List.find?_map]
    · simp [List.find?_cons, hx, -List.find?_map]
      simpa [-List.find?_map] using ih

/-- An authorized PATCH (request found, caller's user row found, caller is
the owning client or the bound technician) answers 200 with the merged row
and stores exactly that merge. -/
theorem patch_authorized_eq (db : Storage) (userId id : String) (u : RequestPatch) (now : Nat)
    (r : ServiceRequest) (hr : getServiceRequest db id = some r)
    (hu : (getUser db userId).isSome = true)
    (hauth : r.clientId = userId ∨ r.technicianId = some userId) :
    patchServiceRequestRoute db userId id u now =
      (ApiResult.ok (some (applyPatch r u now)),
       { db with requests :=
          db.requests.map (fun x => if x.id == id then applyPatch x u now else x) }) := by
  obtain ⟨usr, husr⟩ := Option.isSome_iff_exists.mp hu
  have hcond : ¬(r.clientId ≠ userId ∧ r.technicianId ≠ some userId) := by
    rcases hauth with h | h <;> simp [h]
  have hfind : (db.requests.map fun x => if x.id == id then applyPatch x u now else x).find?
      (fun x => x.id == id) = some (applyPatch r u now) := by
    rw [@find?_map_ite db.requests id (fun x => applyPatch x u now) (fun x => rfl)]
    unfold getServiceRequest at hr
    rw [hr]
    rfl
  simp only [patchServiceRequestRoute, hr, husr, updateServiceRequest]
  rw [if_neg hcond]
  rw [hfind]

/-- C4: for every skill set, the availability listing returns exactly the
requests with status `pending` and null technicianId (restricted, when the
skill set is non-empty, to those whose serviceType is an exact case-sensitive
member of the set, an empty set matching everything), is ordered by
`createdAt` descending, and never contains an assigned or non-pending
request. -/
theorem availability_exact_and_sorted (db : Storage) (skills : List String) :
    (∀ r, r ∈ getAvailableServiceRequests db skills ↔
      (r ∈ db.requests ∧ r.status = "pending" ∧ r.technicianId = none ∧
        (skills = [] ∨ r.serviceType ∈ skills))) ∧
    (getAvailableServiceRequests db skills).Pairwise (fun a b => b.createdAt ≤ a.createdAt) ∧
    (∀ r, r ∈ getAvailableServiceRequests db skills →
      r.technicianId = none ∧ r.status = "pending") := by
  have hiff : ∀ r, r ∈ getAvailableServiceRequests db skills ↔
      (r ∈ db.requests ∧ r.status = "pending" ∧ r.technicianId = none ∧
        (skills = [] ∨ r.serviceType ∈ skills)) := by
    intro r
    unfold getAvailableServiceRequests
    by_cases hs : 0 < skills.length
    · have hne : skills ≠ [] := by
        intro h
        rw [h] at hs
        simp at hs
      rw [if_pos hs]
      simp only [List.mem_filter, mem_sortByCreatedAtDesc]
      constructor
      · rintro ⟨⟨hmem, hp⟩, hc⟩
        simp only [Bool.and_eq_true, beq_iff_eq, Option.isNone_iff_eq_none] at hp
        refine ⟨hmem, hp.1, hp.2, Or.inr ?_⟩
        simpa using hc
      · rintro ⟨hmem, hst, htech, hsk⟩
        rcases hsk with h | h
        · exact absurd h hne
        · refine ⟨⟨hmem, ?_⟩, ?_⟩
          · simp [hst, htech]
          · simpa using h
    · have h0 : skills = [] := by
        cases skills with
        | nil => rfl
        | cons a l => simp at hs
      subst h0
      rw [if_neg hs]
      simp only [mem_sortByCreatedAtDesc, List.mem_filter, Bool.and_eq_true, beq_iff_eq,
        Option.isNone_iff_eq_none]
      tauto
  refine ⟨hiff, ?_, ?_⟩
  · unfold getAvailableServiceRequests
    by_cases hs : 0 < skills.length
    · rw [if_pos hs]
      exact (pairwise_sortByCreatedAtDesc _).filter _
    · rw [if_neg hs]
      exact pairwise_sortByCreatedAtDesc _
  · intro r hr
    rcases (hiff r).mp hr with ⟨_, hst, htech, _⟩
    exact ⟨htech, hst⟩

/-- Concrete pending unassigned request used to witness the availability
listing theorem. -/
def availWitnessReq : ServiceRequest :=
  { id := "r-a"
    clientId := "c-a"
    technicianId := none
    serviceType := "Plumber"
    description := "leaky sink"
    location := "Cairo"
    status := "pending"
    quotedPrice := none
    technicianNotes := none
    images := []
    createdAt := 3
    updatedAt := 3 }

/-- Concrete one-request database for the availability witness. -/
def availWitnessDb : Storage :=
  { users := [], requests := [availWitnessReq], payments := [] }

/-- C4 witness: a concrete pending unassigned request with a matching skill
is in the listing, by the availability theorem. -/
theorem availability_exact_and_sorted_witness :
    availWitnessReq ∈ getAvailableServiceRequests availWitnessDb ["Plumber"] :=
  ((availability_exact_and_sorted availWitnessDb ["Plumber"]).1 availWitnessReq).mpr
    (by decide)

/-- Technician user present in the database of the C1 run. -/
def c1Tech : User :=
  { id := "tech-1", email := "t1@example.com", userType := some "technician",
    skills := ["Plumber"] }

/-- Database holding only the technician, before the C1 job creation. -/
def c1Db : Storage := { users := [c1Tech], requests := [], payments := [] }

/-- The row `POST /api/technician/jobs` inserts in the C1 run: status
`pending` with the creator recorded as both clientId and technicianId. -/
def c1Created : ServiceRequest :=
  { id := "req-1"
    clientId := "tech-1"
    technicianId := some "tech-1"
    serviceType := "Plumber"
    description := "Fix the kitchen sink"
    location := "Cairo"
    status := "pending"
    quotedPrice := none
    technicianNotes := none
    images := []
    createdAt := 5
    updatedAt := 5 }

/-- C1 counterexample: the technician job-creation operation produces a
reachable request whose status is `pending` while its technicianId is
non-null, so technicianId non-null is not equivalent to status outside
pending/cancelled. -/
theorem c1_pending_request_with_technician :
    createTechnicianJobRoute c1Db "tech-1" "Plumber" "Fix the kitchen sink" "Cairo" "req-1" 5 =
      (ApiResult.ok c1Created, { c1Db with requests := [c1Created] }) ∧
    c1Created.status = "pending" ∧ c1Created.technicianId = some "tech-1" :=
  ⟨rfl, rfl, rfl⟩

/-- C1 amended: only the client-facing create operation establishes the
null-technician/pending relationship: a request created through
`POST /api/service-requests` with no status and no technicianId in the body
starts as `pending` with null technicianId and the caller as client.
Technician job creation and the generic PATCH do not preserve the claimed
biconditional. -/
theorem c1_amended_client_create_pending_null (db : Storage) (userId : String)
    (body : CreateRequestBody) (newId : String) (now : Nat)
    (hs : body.status = none) (ht : body.technicianId = none) :
    ∀ r, (createServiceRequestRoute db userId body newId now).1 = ApiResult.ok r →
      r.status = "pending" ∧ r.technicianId = none ∧ r.clientId = userId := by
  intro r h
  simp only [createServiceRequestRoute] at h
  cases h
  refine ⟨?_, ht, rfl⟩
  simp [hs]

/-- Body of the client-create call used in the C1 witness (status and
technicianId absent). -/
def c1Body : CreateRequestBody :=
  { serviceType := "Plumber", description := "leaky faucet repair", location := "Giza",
    status := none, technicianId := none, quotedPrice := none, technicianNotes := none,
    images := none }

/-- Empty database for the C1 witness run. -/
def c1EmptyDb : Storage := { users := [], requests := [], payments := [] }

/-- The row the C1 witness run inserts. -/
def c1WitnessReq : ServiceRequest :=
  { id := "r9"
    clientId := "c1"
    technicianId := none
    serviceType := "Plumber"
    description := "leaky faucet repair"
    location := "Giza"
    status := "pending"
    quotedPrice := none
    technicianNotes := none
    images := []
    createdAt := 7
    updatedAt := 7 }

/-- C1 witness: a concrete client-create run yields a pending request with
null technicianId, by the amended theorem. -/
theorem c1_amended_witness :
    c1WitnessReq.status = "pending" ∧ c1WitnessReq.technicianId = none ∧
      c1WitnessReq.clientId = "c1" :=
  c1_amended_client_create_pending_null c1EmptyDb "c1" c1Body "r9" 7 rfl rfl c1WitnessReq rfl

/-- Owning client of the completed request in the C2 run. -/
def c2Client : User :=
  { id := "cl-2", email := "c2@example.com", userType := some "client", skills := [] }

/-- A completed (terminal) request, bound to technician t2. -/
def c2Req : ServiceRequest :=
  { id := "r2"
    clientId := "cl-2"
    technicianId := some "t2"
    serviceType := "Electrician"
    description := "rewire panel"
    location := "Alexandria"
    status := "completed"
    quotedPrice := some 120
    technicianNotes := some "done"
    images := []
    createdAt := 1
    updatedAt := 2 }

/-- Database for the C2 run. -/
def c2Db : Storage := { users := [c2Client], requests := [c2Req], payments := [] }

/-- PATCH body setting status back to `pending`. -/
def c2Patch : RequestPatch := { RequestPatch.empty with status := some "pending" }

/-- C2 counterexample: the generic update issued by the owning client moves a
`completed` request back to `pending`. -/
theorem c2_terminal_request_reverted :
    (getServiceRequest c2Db "r2").map (fun r => r.status) = some "completed" ∧
    ((patchServiceRequestRoute c2Db "cl-2" "r2" c2Patch 9).2.requests.find?
        (fun r => r.id == "r2")).map (fun r => r.status) = some "pending" :=
  ⟨rfl, rfl⟩

/-- C2 amended: the generic update has no terminal-state guard: once the
caller is authorized (owning client or bound technician), any supplied status
— including on a `completed` or `cancelled` request — is applied verbatim. -/
theorem c2_amended_no_terminal_guard (db : Storage) (userId id : String) (u : RequestPatch)
    (now : Nat) (r : ServiceRequest) (s : String)
    (hr : getServiceRequest db id = some r) (hu : (getUser db userId).isSome = true)
    (hauth : r.clientId = userId ∨ r.technicianId = some userId)
    (hterm : r.status = "completed" ∨ r.status = "cancelled")
    (hs : u.status = some s) :
    (patchServiceRequestRoute db userId id u now).1 =
      ApiResult.ok (some (applyPatch r u now)) ∧
    (applyPatch r u now).status = s := by
  have h := patch_authorized_eq db userId id u now r hr hu hauth
  constructor
  · rw [h]
  · simp [applyPatch, hs]

/-- C2 witness: the concrete completed request of the counterexample run is
moved to `pending` by its owning client, by the amended theorem. -/
theorem c2_amended_witness :
    (patchServiceRequestRoute c2Db "cl-2" "r2" c2Patch 9).1 =
      ApiResult.ok (some (applyPatch c2Req c2Patch 9)) ∧
    (applyPatch c2Req c2Patch 9).status = "pending" :=
  c2_amended_no_terminal_guard c2Db "cl-2" "r2" c2Patch 9 c2Req "pending" rfl rfl
    (Or.inl rfl) (Or.inl rfl) rfl

/-- Owning client of the pending request in the C3 run. -/
def c3Client : User :=
  { id := "cl-3", email := "c3@example.com", userType := some "client", skills := [] }

/-- A fresh pending, unassigned request owned by cl-3. -/
def c3Req : ServiceRequest :=
  { id := "r3"
    clientId := "cl-3"
    technicianId := none
    serviceType := "Plumber"
    description := "fix sink"
    location := "Cairo"
    status := "pending"
    quotedPrice := none
    technicianNotes := none
    images := []
    createdAt := 1
    updatedAt := 1 }

/-- Database for the C3 counterexample run. -/
def c3Db : Storage := { users := [c3Client], requests := [c3Req], payments := [] }

/-- The accept body the UI sends for cl-3: bind technicianId to the caller
and set status `accepted`. -/
def c3AcceptPatch : RequestPatch :=
  { RequestPatch.empty with technicianId := some (some "cl-3"), status := some "accepted" }

/-- C3 counterexample: an accept attempt by a caller of role `client` (the
owner, not a technician) is not rejected with Forbidden — it succeeds and
binds technicianId — so the accept transition is not gated on the technician
role. -/
theorem c3_client_accept_not_forbidden :
    (patchServiceRequestRoute c3Db "cl-3" "r3" c3AcceptPatch 2).1 ≠
      ApiResult.err 403 "Access denied" ∧
    ((patchServiceRequestRoute c3Db "cl-3" "r3" c3AcceptPatch 2).2.requests.find?
        (fun r => r.id == "r3")).map (fun r => (r.status, r.technicianId)) =
      some ("accepted", some "cl-3") :=
  ⟨by decide, rfl⟩

/-- C3 amended: the update path that carries the accept transition checks
only resolution and ownership: it fails with NotFound when the id does not
resolve, and with Forbidden exactly when the caller is neither the owning
client nor the bound technician — with the database unchanged, so after T1 is
bound, an accept attempt by a different technician T2 fails with Forbidden
and technicianId remains T1. No role or pending-status (Conflict) check is
performed. -/
theorem c3_amended_ownership_gate (db : Storage) (userId id : String) (u : RequestPatch)
    (now : Nat) :
    (getServiceRequest db id = none →
      patchServiceRequestRoute db userId id u now =
        (ApiResult.err 404 "Service request not found", db)) ∧
    (∀ r, getServiceRequest db id = some r → (getUser db userId).isSome = true →
      r.clientId ≠ userId → r.technicianId ≠ some userId →
      patchServiceRequestRoute db userId id u now = (ApiResult.err 403 "Access denied", db)) := by
  constructor
  · intro h
    simp only [patchServiceRequestRoute, h]
  · intro r hr hu hc ht
    obtain ⟨usr, husr⟩ := Option.isSome_iff_exists.mp hu
    simp only [patchServiceRequestRoute, hr, husr]
    rw [if_pos ⟨hc, ht⟩]

/-- Rival technician attempting the second accept in the C3 witness. -/
def c3T2 : User :=
  { id := "t2", email := "t2@example.com", userType := some "technician", skills := [] }

/-- The request after T1's acceptance, still owned by cl-3. -/
def c3ReqTaken : ServiceRequest :=
  { id := "r3b"
    clientId := "cl-3"
    technicianId := some "t1"
    serviceType := "Plumber"
    description := "fix sink"
    location := "Cairo"
    status := "accepted"
    quotedPrice := none
    technicianNotes := none
    images := []
    createdAt := 1
    updatedAt := 2 }

/-- Database for the C3 witness run. -/
def c3DbTaken : Storage := { users := [c3T2], requests := [c3ReqTaken], payments := [] }

/-- T2's accept body. -/
def c3AcceptPatchT2 : RequestPatch :=
  { RequestPatch.empty with technicianId := some (some "t2"), status := some "accepted" }

/-- C3 witness: after T1 is bound, T2's accept attempt answers 403 and the
database — hence technicianId = T1 — is unchanged, by the amended theorem. -/
theorem c3_amended_witness :
    patchServiceRequestRoute c3DbTaken "t2" "r3b" c3AcceptPatchT2 4 =
      (ApiResult.err 403 "Access denied", c3DbTaken) :=
  (c3_amended_ownership_gate c3DbTaken "t2" "r3b" c3AcceptPatchT2 4).2 c3ReqTaken rfl rfl
    (by decide) (by decide)

/-- Bound technician of the in-progress request in the C8 run. -/
def c8Tech : User :=
  { id := "t8", email := "t8@example.com", userType := some "technician", skills := [] }

/-- An in-progress request bound to t8. -/
def c8Req : ServiceRequest :=
  { id := "r8"
    clientId := "cl-8"
    technicianId := some "t8"
    serviceType := "Plumber"
    description := "replace pipe"
    location := "Cairo"
    status := "in_progress"
    quotedPrice := none
    technicianNotes := none
    images := []
    createdAt := 1
    updatedAt := 3 }

/-- Database for the C8 run. -/
def c8Db : Storage := { users := [c8Tech], requests := [c8Req], payments := [] }

/-- Completion body with zero price and empty summary. -/
def c8Patch : RequestPatch :=
  { RequestPatch.empty with
    status := some "completed", quotedPrice := some (some 0), technicianNotes := some (some "") }

/-- C8 counterexample: a completion attempt with quotedPrice 0 and an empty
summary is applied, not rejected: the stored status becomes `completed` with
price 0 and empty notes. -/
theorem c8_zero_price_completion_applied :
    (patchServiceRequestRoute c8Db "t8" "r8" c8Patch 6).1 =
      ApiResult.ok (some (applyPatch c8Req c8Patch 6)) ∧
    ((patchServiceRequestRoute c8Db "t8" "r8" c8Patch 6).2.requests.find?
        (fun r => r.id == "r8")).map (fun r => (r.status, r.quotedPrice, r.technicianNotes)) =
      some ("completed", some 0, some "") :=
  ⟨rfl, rfl⟩

/-- C8 amended: the bound technician's completion update is applied as one
atomic merge (status, quotedPrice, notes and a re-derived updatedAt in a
single write), but with no validation: any quotedPrice — including zero or a
negative value — and any summary — including the empty string — are stored
verbatim and the status becomes `completed`. -/
theorem c8_amended_completion_unvalidated (db : Storage) (userId id : String) (u : RequestPatch)
    (now : Nat) (r : ServiceRequest) (q : Option Int) (nts : Option String)
    (hr : getServiceRequest db id = some r) (hu : (getUser db userId).isSome = true)
    (hb : r.technicianId = some userId) (hst : u.status = some "completed")
    (hq : u.quotedPrice = some q) (hn : u.technicianNotes = some nts) :
    patchServiceRequestRoute db userId id u now =
      (ApiResult.ok (some (applyPatch r u now)),
       { db with requests :=
          db.requests.map (fun x => if x.id == id then applyPatch x u now else x) }) ∧
    (applyPatch r u now).status = "completed" ∧
    (applyPatch r u now).quotedPrice = q ∧
    (applyPatch r u now).technicianNotes = nts ∧
    (applyPatch r u now).updatedAt = now := by
  refine ⟨patch_authorized_eq db userId id u now r hr hu (Or.inr hb), ?_, ?_, ?_, rfl⟩
  · simp [applyPatch, hst]
  · simp [applyPatch, hq]
  · simp [applyPatch, hn]

/-- C8 witness: the concrete zero-price, empty-summary completion of the
counterexample run goes through as one merge, by the amended theorem. -/
theorem c8_amended_witness :
    patchServiceRequestRoute c8Db "t8" "r8" c8Patch 6 =
      (ApiResult.ok (some (applyPatch c8Req c8Patch 6)),
       { c8Db with requests :=
          c8Db.requests.map (fun x => if x.id == "r8" then applyPatch x c8Patch 6 else x) }) ∧
    (applyPatch c8Req c8Patch 6).status = "completed" ∧
    (applyPatch c8Req c8Patch 6).quotedPrice = some 0 ∧
    (applyPatch c8Req c8Patch 6).technicianNotes = some "" ∧
    (applyPatch c8Req c8Patch 6).updatedAt = 6 :=
  c8_amended_completion_unvalidated c8Db "t8" "r8" c8Patch 6 c8Req (some 0) (some "")
    rfl rfl rfl rfl rfl rfl

/-- Owning client in the C9 run. -/
def c9Client : User :=
  { id := "cl-9", email := "c9@example.com", userType := some "client", skills := [] }

/-- A pending request owned by cl-9. -/
def c9Req : ServiceRequest :=
  { id := "r9c"
    clientId := "cl-9"
    technicianId := none
    serviceType := "Plumber"
    description := "unclog drain"
    location := "Cairo"
    status := "pending"
    quotedPrice := none
    technicianNotes := none
    images := []
    createdAt := 1
    updatedAt := 1 }

/-- Database for the C9 run. -/
def c9Db : Storage := { users := [c9Client], requests := [c9Req], payments := [] }

/-- PATCH body supplying a new clientId and a status outside the enum. -/
def c9Patch : RequestPatch :=
  { RequestPatch.empty with clientId := some "intruder", status := some "bogus_state" }

/-- C9 counterexample: the generic update applies a body that rewrites
clientId and stores a status outside the closed enum — neither is rejected. -/
theorem c9_clientid_rewritten_status_unvalidated :
    (patchServiceRequestRoute c9Db "cl-9" "r9c" c9Patch 3).1 =
      ApiResult.ok (some (applyPatch c9Req c9Patch 3)) ∧
    ((patchServiceRequestRoute c9Db "cl-9" "r9c" c9Patch 3).2.requests.find?
        (fun r => r.id == "r9c")).map (fun r => (r.clientId, r.status)) =
      some ("intruder", "bogus_state") :=
  ⟨rfl, rfl⟩

/-- C9 amended: the authorized generic update applies a partial merge over
every supplied insert-schema field — clientId included, not just
status/notes/price — performs no validation of the status value, and
re-derives updatedAt; clientId changes whenever the body supplies it. -/
theorem c9_amended_merge_all_fields (db : Storage) (userId id : String) (u : RequestPatch)
    (now : Nat) (r : ServiceRequest)
    (hr : getServiceRequest db id = some r) (hu : (getUser db userId).isSome = true)
    (hauth : r.clientId = userId ∨ r.technicianId = some userId) :
    (patchServiceRequestRoute db userId id u now).1 =
      ApiResult.ok (some (applyPatch r u now)) ∧
    (patchServiceRequestRoute db userId id u now).2.requests.find? (fun x => x.id == id) =
      some (applyPatch r u now) ∧
    (applyPatch r u now).updatedAt = now ∧
    (applyPatch r u now).status = u.status.getD r.status ∧
    (applyPatch r u now).clientId = u.clientId.getD r.clientId ∧
    (applyPatch r u now).quotedPrice = u.quotedPrice.getD r.quotedPrice ∧
    (applyPatch r u now).technicianNotes = u.technicianNotes.getD r.technicianNotes := by
  have h := patch_authorized_eq db userId id u now r hr hu hauth
  refine ⟨?_, ?_, rfl, rfl, rfl, rfl, rfl⟩
  · rw [h]
  · rw [h]
    show (db.requests.map fun x => if x.id == id then applyPatch x u now else x).find?
        (fun x => x.id == id) = some (applyPatch r u now)
    rw [@find?_map_ite db.requests id (fun x => applyPatch x u now) (fun x => rfl)]
    unfold getServiceRequest at hr
    rw [hr]
    rfl

/-- C9 witness: the concrete clientId-rewriting, bogus-status body of the
counterexample run is merged verbatim, by the amended theorem. -/
theorem c9_amended_witness :
    (patchServiceRequestRoute c9Db "cl-9" "r9c" c9Patch 3).1 =
      ApiResult.ok (some (applyPatch c9Req c9Patch 3)) ∧
    (patchServiceRequestRoute c9Db "cl-9" "r9c" c9Patch 3).2.requests.find?
      (fun x => x.id == "r9c") = some (applyPatch c9Req c9Patch 3) ∧
    (applyPatch c9Req c9Patch 3).updatedAt = 3 ∧
    (applyPatch c9Req c9Patch 3).status = (c9Patch.status).getD c9Req.status ∧
    (applyPatch c9Req c9Patch 3).clientId = (c9Patch.clientId).getD c9Req.clientId ∧
    (applyPatch c9Req c9Patch 3).quotedPrice = (c9Patch.quotedPrice).getD c9Req.quotedPrice ∧
    (applyPatch c9Req c9Patch 3).technicianNotes =
      (c9Patch.technicianNotes).getD c9Req.technicianNotes :=
  c9_amended_merge_all_fields c9Db "cl-9" "r9c" c9Patch 3 c9Req rfl rfl (Or.inl rfl)

/-- A completed request carrying a negative quoted price. -/
def c5Req : ServiceRequest :=
  { id := "r5"
    clientId := "cl-5"
    technicianId := some "t5"
    serviceType := "Plumber"
    description := "fix heater"
    location := "Cairo"
    status := "completed"
    quotedPrice := some (-5)
    technicianNotes := some "done"
    images := []
    createdAt := 1
    updatedAt := 4 }

/-- Database for the C5 counterexample run. -/
def c5Db : Storage := { users := [], requests := [c5Req], payments := [] }

/-- C5 counterexample: createIntent for a completed request whose quotedPrice
is -5 — not a positive price — is not rejected: the truthiness test
`!request.quotedPrice` only catches an absent or zero price, so a pending
payment of amount -5 is persisted and the client token returned. -/
theorem c5_negative_price_not_rejected :
    (createPaymentIntentRoute c5Db "r5" "pi_1" "secret_1" "pay-1" 11).1 =
      ApiResult.ok ("secret_1", "pay-1") ∧
    ((createPaymentIntentRoute c5Db "r5" "pi_1" "secret_1" "pay-1" 11).2.payments.map
        (fun p => (p.id, p.amount, p.status))) = [("pay-1", -5, "pending")] :=
  ⟨rfl, rfl⟩

/-- C5 amended: createIntent fails when the request is not `completed`, or
when its quotedPrice is absent or zero (the code's falsy test — a negative
price passes); it fails with the already-paid error when the first stored
payment row of the request has status `succeeded`; otherwise it persists
exactly one new Payment row with status `pending` and amount equal to the
quoted price, and returns the processor's client token with the payment id. -/
theorem c5_amended_create_intent (db : Storage) (reqId intentId secret pid : String)
    (now : Nat) (r : ServiceRequest) (hr : getServiceRequest db reqId = some r) :
    (r.status ≠ "completed" →
      createPaymentIntentRoute db reqId intentId secret pid now =
        (ApiResult.err 400 "Service request must be completed before payment", db)) ∧
    (r.status = "completed" → r.quotedPrice = none →
      createPaymentIntentRoute db reqId intentId secret pid now =
        (ApiResult.err 400 "No quoted price available", db)) ∧
    (r.status = "completed" → r.quotedPrice = some 0 →
      createPaymentIntentRoute db reqId intentId secret pid now =
        (ApiResult.err 400 "No quoted price available", db)) ∧
    (∀ p, r.status = "completed" → r.quotedPrice = some p → p ≠ 0 →
      (getPaymentByServiceRequest db reqId).any (fun q => q.status == "succeeded") = true →
      createPaymentIntentRoute db reqId intentId secret pid now =
        (ApiResult.err 400 "Payment already completed", db)) ∧
    (∀ p, r.status = "completed" → r.quotedPrice = some p → p ≠ 0 →
      (getPaymentByServiceRequest db reqId).any (fun q => q.status == "succeeded") = false →
      createPaymentIntentRoute db reqId intentId secret pid now =
        (ApiResult.ok (secret, pid),
         { db with payments := db.payments ++
            [{ id := pid, serviceRequestId := reqId, amount := p,
               stripePaymentIntentId := intentId, status := "pending", createdAt := now }] })) := by
  refine ⟨?_, ?_, ?_, ?_, ?_⟩
  · intro h
    simp only [createPaymentIntentRoute, hr]
    rw [if_pos h]
  · intro h1 h2
    simp only [createPaymentIntentRoute, hr, h2]
    rw [if_neg (by simp [h1])]
  · intro h1 h2
    simp only [createPaymentIntentRoute, hr, h2]
    rw [if_neg (by simp [h1])]
    rw [if_pos trivial]
  · intro p h1 h2 h3 h4
    simp only [createPaymentIntentRoute, hr, h2]
    rw [if_neg (by simp [h1])]
    rw [if_neg h3]
    rw [if_pos h4]
  · intro p h1 h2 h3 h4
    simp only [createPaymentIntentRoute, hr, h2]
    rw [if_neg (by simp [h1])]
    rw [if_neg h3]
    rw [if_neg (by simp [h4])]

/-- A completed request with a positive price, for the C5 witness. -/
def c5GoodReq : ServiceRequest :=
  { id := "r5g"
    clientId := "cl-5"
    technicianId := some "t5"
    serviceType := "Plumber"
    description := "fix heater"
    location := "Cairo"
    status := "completed"
    quotedPrice := some 120
    technicianNotes := some "Fixed leak"
    images := []
    createdAt := 1
    updatedAt := 4 }

/-- Database for the C5 witness run. -/
def c5GoodDb : Storage := { users := [], requests := [c5GoodReq], payments := [] }

/-- C5 witness: the concrete completed request with price 120 and no prior
payment gets exactly one new pending payment of amount 120 and the client
token back, by the amended theorem. -/
theorem c5_amended_witness :
    createPaymentIntentRoute c5GoodDb "r5g" "pi_9" "sec_9" "pay-9" 13 =
      (ApiResult.ok ("sec_9", "pay-9"),
       { c5GoodDb with payments :=
          [{ id := "pay-9", serviceRequestId := "r5g", amount := 120,
             stripePaymentIntentId := "pi_9", status := "pending", createdAt := 13 }] }) :=
  (c5_amended_create_intent c5GoodDb "r5g" "pi_9" "sec_9" "pay-9" 13 c5GoodReq
    rfl).2.2.2.2 120 rfl rfl (by decide) rfl

/-- The completed request both C6 payments settle against. -/
def c6Req : ServiceRequest :=
  { id := "r6"
    clientId := "cl-6"
    technicianId := some "t6"
    serviceType := "Plumber"
    description := "fix boiler"
    location := "Cairo"
    status := "completed"
    quotedPrice := some 120
    technicianNotes := some "done"
    images := []
    createdAt := 1
    updatedAt := 4 }

/-- Initial database of the C6 run. -/
def c6Db0 : Storage := { users := [], requests := [c6Req], payments := [] }

/-- C6 run, step 1: first createIntent (first payment row, pending). -/
def c6Db1 : Storage := (createPaymentIntentRoute c6Db0 "r6" "pi_a" "sec_a" "pay-a" 1).2

/-- C6 run, step 2: second createIntent — allowed, since the first row is
only `pending`. -/
def c6Db2 : Storage := (createPaymentIntentRoute c6Db1 "r6" "pi_b" "sec_b" "pay-b" 2).2

/-- Processor that reports every intent as succeeded. -/
def c6Processor : String → String := fun _ => "succeeded"

/-- C6 run, step 3: confirm the first payment. -/
def c6Db3 : Storage := (confirmPaymentRoute c6Db2 "pay-a" "pi_a" c6Processor).2

/-- C6 run, step 4: confirm the second payment. -/
def c6Db4 : Storage := (confirmPaymentRoute c6Db3 "pay-b" "pi_b" c6Processor).2

/-- C6: after the sequence createIntent, createIntent, confirm, confirm on
one request, two Payment rows of that request have status `succeeded`, so
the at-most-one-succeeded invariant fails on the code. -/
theorem c6_two_payments_succeed :
    (c6Db4.payments.filter
        (fun p => p.serviceRequestId == "r6" && p.status == "succeeded")).length = 2 ∧
    c6Db4.payments.map (fun p => (p.id, p.status)) =
      [("pay-a", "succeeded"), ("pay-b", "succeeded")] :=
  ⟨rfl, rfl⟩

/-- C7: the confirm operation's outcome is a function of the processor-
reported status of the supplied intent reference alone: if the processor
reports `succeeded` the payment row named by the caller is set to
`succeeded` and success is answered; otherwise the database is untouched and
non-success is answered with HTTP 200, not an error. -/
theorem c7_confirm_outcome_from_processor (db : Storage) (paymentId ref : String)
    (proc : String → String) :
    (proc ref = "succeeded" →
      confirmPaymentRoute db paymentId ref proc =
        (ApiResult.ok true,
         { db with payments :=
            db.payments.map (fun p => if p.id == paymentId then { p with status := "succeeded" } else p) })) ∧
    (proc ref ≠ "succeeded" →
      confirmPaymentRoute db paymentId ref proc = (ApiResult.ok false, db)) := by
  constructor
  · intro h
    simp only [confirmPaymentRoute, updatePaymentStatus]
    rw [if_pos h]
  · intro h
    simp only [confirmPaymentRoute]
    rw [if_neg h]

/-- A pending payment row for the C7 witness. -/
def c7Payment : Payment :=
  { id := "p7", serviceRequestId := "r7", amount := 120,
    stripePaymentIntentId := "pi_7", status := "pending", createdAt := 1 }

/-- Database for the C7 witness run. -/
def c7Db : Storage := { users := [], requests := [], payments := [c7Payment] }

/-- C7 witness: with a processor reporting success, the concrete payment row
is set to `succeeded` and success is answered, by the theorem. -/
theorem c7_confirm_witness :
    confirmPaymentRoute c7Db "p7" "pi_7" (fun _ => "succeeded") =
      (ApiResult.ok true,
       { c7Db with payments :=
          c7Db.payments.map (fun p => if p.id == "p7" then { p with status := "succeeded" } else p) }) :=
  (c7_confirm_outcome_from_processor c7Db "p7" "pi_7" (fun _ => "succeeded")).1 rfl

/-- C10: whenever the processor reports the supplied reference as succeeded,
confirm marks the payment row named by the client-supplied paymentId as
succeeded and answers success — for every database, so with no check that
the reference matches that row's stored intent reference, that the row
exists, or that the caller is related to the payment's request. -/
theorem c10_confirm_without_crosschecks (db : Storage) (paymentId ref : String)
    (proc : String → String) (h : proc ref = "succeeded") :
    confirmPaymentRoute db paymentId ref proc =
      (ApiResult.ok true,
       { db with payments :=
          db.payments.map (fun p => if p.id == paymentId then { p with status := "succeeded" } else p) }) := by
  simp only [confirmPaymentRoute, updatePaymentStatus]
  rw [if_pos h]

/-- A payment whose stored intent reference is `pi_real`. -/
def c10Payment : Payment :=
  { id := "p10", serviceRequestId := "r10", amount := 50,
    stripePaymentIntentId := "pi_real", status := "pending", createdAt := 1 }

/-- Database for the C10 witness run. -/
def c10Db : Storage := { users := [], requests := [], payments := [c10Payment] }

/-- Processor reporting success only for `pi_other`, a reference different
from the stored one. -/
def c10Processor : String → String :=
  fun s => if s == "pi_other" then "succeeded" else "requires_payment_method"

/-- C10 witness: confirming with a reference that does not match the stored
intent reference of the named payment still marks it succeeded, by the
theorem. -/
theorem c10_confirm_witness :
    confirmPaymentRoute c10Db "p10" "pi_other" c10Processor =
      (ApiResult.ok true,
       { c10Db with payments := [{ c10Payment with status := "succeeded" }] }) ∧
    c10Payment.stripePaymentIntentId ≠ "pi_other" :=
  ⟨c10_confirm_without_crosschecks c10Db "p10" "pi_other" c10Processor rfl, by decide⟩
